import Mathlib

/-!
Shallow embedding of the Ray-on-Spark resource sizing, node-count resolution,
startup file-lock barrier, and Databricks lifecycle hook
(`python/ray/util/spark/utils.py` and `python/ray/util/spark/databricks_hook.py`).

Python numeric behaviour is modelled exactly over `ℤ`/`ℚ`: `int(q)` truncates
toward zero, `/` on integers is exact rational division (raising
`ZeroDivisionError` on a zero divisor), and fallible functions return
`Except PyExc`. Side-effecting lifecycle code is modelled by explicit
environments (observation sequences for the idle watcher, attempt outcomes for
the file lock) and outcome records listing the effects performed.
-/

namespace RayOnSpark

/-- The Python exception classes the embedded code can raise. -/
inductive PyExc where
  | valueError
  | typeError
  | zeroDivisionError
  | timeoutError
  | noDbutilsError
  deriving DecidableEq, Repr

/-- Python `int(q)`: truncation toward zero of an exact rational, i.e.
`Int.tdiv` (T-division) of the reduced numerator by the (positive) denominator. -/
def pyInt (q : ℚ) : ℤ := q.num.tdiv (q.den : ℤ)

/-- Constant `_MEMORY_BUFFER_OFFSET = 0.8` from `utils.py`. -/
def MEMORY_BUFFER_OFFSET : ℚ := 4 / 5

/-- Constant `_HEAP_TO_SHARED_RATIO = 0.4` from `utils.py`. -/
def heap_to_shared_ratio : ℚ := 2 / 5

/-- Embedding of `_calc_mem_per_ray_worker_node` from `utils.py`.
`physical_mem_bytes / num_task_slots` raises `ZeroDivisionError` when
`num_task_slots == 0`; otherwise each `int(...)` truncates the exact value. -/
def calc_mem_per_ray_worker_node (num_task_slots physical_mem_bytes shared_mem_bytes : ℤ)
    (heap_to_object_store_ratio : ℚ) : Except PyExc (ℤ × ℤ) :=
  if num_task_slots = 0 then .error .zeroDivisionError
  else
    let available_physical_mem_per_node : ℤ :=
      pyInt ((physical_mem_bytes : ℚ) / (num_task_slots : ℚ) * MEMORY_BUFFER_OFFSET)
    let available_shared_mem_per_node : ℤ :=
      pyInt ((shared_mem_bytes : ℚ) / (num_task_slots : ℚ) * MEMORY_BUFFER_OFFSET)
    let object_store_bytes : ℤ :=
      pyInt (min ((available_physical_mem_per_node : ℚ) * heap_to_object_store_ratio)
        ((available_shared_mem_per_node : ℚ)))
    let heap_mem_bytes : ℤ := available_physical_mem_per_node - object_store_bytes
    .ok (heap_mem_bytes, object_store_bytes)

/-- Python `int(math.ceil(a / b))`: exact rational division then ceiling;
a zero divisor raises `ZeroDivisionError`. -/
def pyCeilDiv (a b : ℤ) : Except PyExc ℤ :=
  if b = 0 then .error .zeroDivisionError else .ok ⌈(a : ℚ) / (b : ℚ)⌉

/-- Python `max(*lst)`: argument unpacking. With zero arguments, or with a
single non-iterable `int` argument, `max` raises `TypeError`; with two or
more arguments it returns the largest. -/
def pyMaxUnpacked : List ℤ → Except PyExc ℤ
  | [] => .error .typeError
  | [_] => .error .typeError
  | x :: y :: rest => .ok (rest.foldl max (max x y))

/-- Embedding of `_resolve_target_spark_tasks` from `utils.py`:
`max(*calculated_limits)`. -/
def resolve_target_spark_tasks (calculated_limits : List ℤ) : Except PyExc ℤ :=
  pyMaxUnpacked calculated_limits

/-- One `total_X` block of `get_target_spark_tasks`: if the total is provided
it must be positive (else `ValueError`), and `ceil(total / perNode)` is
appended to the candidate list. All four blocks in the source are this shape. -/
def checkTotal (total : Option ℤ) (perNode : ℤ) (acc : List ℤ) : Except PyExc (List ℤ) :=
  match total with
  | none => .ok acc
  | some t =>
    if t ≤ 0 then .error .valueError
    else
      match pyCeilDiv t perNode with
      | .error e => .error e
      | .ok q => .ok (acc ++ [q])

/-- Embedding of `get_target_spark_tasks` from `utils.py`. -/
def get_target_spark_tasks
    (max_concurrent_tasks num_spark_task_cpus num_spark_task_gpus
      ray_worker_node_heap_memory_bytes ray_worker_node_object_store_memory_bytes : ℤ)
    (num_spark_tasks total_cpus total_gpus total_heap_memory_bytes
      total_object_store_memory_bytes : Option ℤ) : Except PyExc ℤ :=
  match num_spark_tasks with
  | some n =>
    if n = -1 then .ok max_concurrent_tasks
    else if n ≤ 0 then .error .valueError
    else .ok n
  | none =>
    match checkTotal total_cpus num_spark_task_cpus [1] with
    | .error e => .error e
    | .ok l1 =>
      match checkTotal total_gpus num_spark_task_gpus l1 with
      | .error e => .error e
      | .ok l2 =>
        match checkTotal total_heap_memory_bytes ray_worker_node_heap_memory_bytes l2 with
        | .error e => .error e
        | .ok l3 =>
          match checkTotal total_object_store_memory_bytes
              ray_worker_node_object_store_memory_bytes l3 with
          | .error e => .error e
          | .ok l4 => resolve_target_spark_tasks l4

/-- Retry budget `max_lock_iter = 600` of `_acquire_lock_for_ray_worker_node_startup`. -/
def max_lock_iter : ℕ := 600

/-- The retry loop in the inner `acquire_lock` of
`_acquire_lock_for_ray_worker_node_startup`: `attempts i` tells whether the
non-blocking `flock` at iteration `i` succeeds (otherwise `BlockingIOError`
is caught and the loop sleeps and retries). On budget exhaustion the loop
raises `TimeoutError`. -/
def acquire_lock_loop (attempts : ℕ → Bool) (fd : ℕ) : ℕ → ℕ → Except PyExc ℕ
  | _, 0 => .error .timeoutError
  | i, n + 1 => if attempts i then .ok fd else acquire_lock_loop attempts fd (i + 1) n

/-- The inner `acquire_lock(file_path)` of
`_acquire_lock_for_ray_worker_node_startup`: the whole body is wrapped in
`try ... except Exception: os.close(fd)`, so the `TimeoutError` raised on
exhaustion is caught there, the descriptor is closed, and the function falls
through returning Python `None` (modelled as `.ok none`). No exception
escapes. -/
def acquire_lock (attempts : ℕ → Bool) (fd : ℕ) : Except PyExc (Option ℕ) :=
  match acquire_lock_loop attempts fd 0 max_lock_iter with
  | .ok f => .ok (some f)
  | .error _ => .ok none

/-- Observable outcome of `_acquire_lock_for_ray_worker_node_startup`:
whether the stale lock file was removed and recreated, what exception (if
any) escaped to the caller, and the lock descriptor variable (`none` models
Python `None`). -/
structure StartupResult where
  removedLockFile : Bool
  raised : Option PyExc
  lockFd : Option ℕ
  deriving DecidableEq, Repr

/-- Embedding of `_acquire_lock_for_ray_worker_node_startup` from `utils.py`:
the first `acquire_lock` call is guarded by `except TimeoutError`, whose
handler removes the lock file and calls `acquire_lock` once more; `first` and
`second` give the flock outcomes of the two potential calls. -/
def acquire_lock_for_ray_worker_node_startup
    (first second : ℕ → Bool) (fd1 fd2 : ℕ) : StartupResult :=
  match acquire_lock first fd1 with
  | .ok r => { removedLockFile := false, raised := none, lockFd := r }
  | .error .timeoutError =>
    match acquire_lock second fd2 with
    | .ok r => { removedLockFile := true, raised := none, lockFd := r }
    | .error e => { removedLockFile := true, raised := some e, lockFd := none }
  | .error e => { removedLockFile := false, raised := some e, lockFd := none }

/-- What one iteration of `auto_shutdown_watcher` in `databricks_hook.py`
observes: the handle's `is_shutdown` flag, the platform's idle-time reading,
and whether the handle is still the process-global active cluster (checked
under `_active_ray_cluster_rwlock` before shutting down). -/
structure Poll where
  is_shutdown : Bool
  idle_time : ℚ
  handler_is_active : Bool

/-- Number of `shutdown_ray_cluster()` calls `auto_shutdown_watcher` performs
over a run described by the given sequence of per-iteration observations
(an exhausted list means the watcher is still looping). -/
def watcher_shutdown_calls (auto_shutdown_millis : ℚ) : List Poll → ℕ
  | [] => 0
  | p :: ps =>
    if p.is_shutdown then 0
    else if p.idle_time > auto_shutdown_millis then
      (if p.handler_is_active then 1 else 0)
    else watcher_shutdown_calls auto_shutdown_millis ps

/-- Embedding of `global_mode_enabled` from `databricks_hook.py`:
`os.environ.get(DATABRICKS_RAY_CLUSTER_GLOBAL_MODE, "false").lower() == "true"`. -/
def global_mode_enabled (envVar : Option String) : Bool :=
  (match envVar with
    | some s => s
    | none => "false").toLower == "true"

/-- Environment of one `DefaultDatabricksRayOnSparkStartHook.on_cluster_created`
call: whether `_get_db_api_entry()` succeeds, the raw
`DATABRICKS_RAY_CLUSTER_GLOBAL_MODE` variable, whether
`registerBackgroundSparkJobGroup` raises, the parsed
`DATABRICKS_RAY_ON_SPARK_AUTOSHUTDOWN_MINUTES` value, and whether
`getIdleTimeMillisSinceLastNotebookExecution` succeeds. -/
structure HookEnv where
  dbutils_ok : Bool
  global_mode_var : Option String
  register_fails : Bool
  auto_shutdown_minutes : ℚ
  idle_query_ok : Bool

/-- Observable outcome of `on_cluster_created`: whether background-job
registration was attempted, whether its failure was logged as a warning,
whether the auto-shutdown watcher thread was started, and what exception (if
any) propagated to the caller. -/
structure HookOutcome where
  tried_register : Bool
  register_warned : Bool
  watcher_started : Bool
  raised : Option PyExc
  deriving DecidableEq, Repr

/-- Embedding of `DefaultDatabricksRayOnSparkStartHook.on_cluster_created`
from `databricks_hook.py`: fetch the API entry point; attempt background-job
registration only when global mode is disabled, catching any failure as a
warning; return early when auto-shutdown is 0; raise `ValueError` on a
negative setting; return early when the idle query is unavailable; otherwise
start the watcher thread. -/
def on_cluster_created (env : HookEnv) : HookOutcome :=
  if env.dbutils_ok = false then
    { tried_register := false, register_warned := false, watcher_started := false,
      raised := some .noDbutilsError }
  else
    let tried := !(global_mode_enabled env.global_mode_var)
    let warned := tried && env.register_fails
    if env.auto_shutdown_minutes = 0 then
      { tried_register := tried, register_warned := warned, watcher_started := false,
        raised := none }
    else if env.auto_shutdown_minutes < 0 then
      { tried_register := tried, register_warned := warned, watcher_started := false,
        raised := some .valueError }
    else if env.idle_query_ok = false then
      { tried_register := tried, register_warned := warned, watcher_started := false,
        raised := none }
    else
      { tried_register := tried, register_warned := warned, watcher_started := true,
        raised := none }

/-- Replace the `register_fails` component of a hook environment. -/
def setRegisterFails (env : HookEnv) (b : Bool) : HookEnv :=
  { env with register_fails := b }

/-! Helper lemmas about the embedded primitives. -/

theorem pyInt_eq_floor {q : ℚ} (h : 0 ≤ q) : pyInt q = ⌊q⌋ := by
  rw [pyInt, Int.tdiv_eq_ediv (Rat.num_nonneg.mpr h) (Int.natCast_nonneg _), Rat.floor_def]

theorem pyInt_nonneg {q : ℚ} (h : 0 ≤ q) : 0 ≤ pyInt q := by
  rw [pyInt_eq_floor h]
  exact Int.le_floor.mpr (by exact_mod_cast h)

theorem pyInt_le_of_le {q : ℚ} {n : ℤ} (h0 : 0 ≤ q) (h : q ≤ (n : ℚ)) : pyInt q ≤ n := by
  rw [pyInt_eq_floor h0]
  exact_mod_cast Int.floor_le_floor h |>.trans_eq (Int.floor_intCast n)

theorem checkTotal_none (p : ℤ) (acc : List ℤ) : checkTotal none p acc = .ok acc := rfl

theorem checkTotal_nonpos {t : ℤ} (ht : t ≤ 0) (p : ℤ) (acc : List ℤ) :
    checkTotal (some t) p acc = .error .valueError := by
  simp [checkTotal, ht]

theorem checkTotal_ok_or_valueError (total : Option ℤ) {p : ℤ} (hp : p ≠ 0) (acc : List ℤ) :
    (∃ l, checkTotal total p acc = .ok l) ∨ checkTotal total p acc = .error .valueError := by
  cases total with
  | none => exact .inl ⟨acc, rfl⟩
  | some t =>
    by_cases ht : t ≤ 0
    · exact .inr (checkTotal_nonpos ht p acc)
    · exact .inl ⟨acc ++ [⌈(t : ℚ) / (p : ℚ)⌉], by simp [checkTotal, ht, pyCeilDiv, hp]⟩

theorem acquire_lock_loop_all_fail (fd : ℕ) : ∀ (i n : ℕ),
    acquire_lock_loop (fun _ => false) fd i n = .error .timeoutError := by
  intro i n
  induction n generalizing i with
  | zero => rfl
  | succ k ih => simpa [acquire_lock_loop] using ih (i + 1)

theorem on_cluster_created_not_dbutils_failed (env : HookEnv)
    (hdb : env.dbutils_ok = true) :
    on_cluster_created env =
      (let tried := !(global_mode_enabled env.global_mode_var)
       let warned := tried && env.register_fails
       if env.auto_shutdown_minutes = 0 then
         { tried_register := tried, register_warned := warned, watcher_started := false,
           raised := none }
       else if env.auto_shutdown_minutes < 0 then
         { tried_register := tried, register_warned := warned, watcher_started := false,
           raised := some .valueError }
       else if env.idle_query_ok = false then
         { tried_register := tried, register_warned := warned, watcher_started := false,
           raised := none }
       else
         { tried_register := tried, register_warned := warned, watcher_started := true,
           raised := none }) := by
  simp [on_cluster_created, hdb]

/-! The claims. -/

/-- C1: for every `num_task_slots ≥ 1` and non-negative physical and shared
memory sizes, with the fixed constants `_MEMORY_BUFFER_OFFSET = 0.8` and
`_HEAP_TO_SHARED_RATIO = 0.4`, `_calc_mem_per_ray_worker_node` returns a pair
`(heap_mem_bytes, object_store_bytes)` with
`heap_mem_bytes + object_store_bytes ≤ physical_mem_bytes` and both
components non-negative. -/
theorem calc_mem_per_ray_worker_node_bounds
    (num_task_slots physical_mem_bytes shared_mem_bytes : ℤ)
    (hslots : 1 ≤ num_task_slots) (hphys : 0 ≤ physical_mem_bytes)
    (hshared : 0 ≤ shared_mem_bytes) :
    ∃ heap_mem_bytes object_store_bytes,
      calc_mem_per_ray_worker_node num_task_slots physical_mem_bytes shared_mem_bytes
          heap_to_shared_ratio = .ok (heap_mem_bytes, object_store_bytes)
        ∧ heap_mem_bytes + object_store_bytes ≤ physical_mem_bytes
        ∧ 0 ≤ heap_mem_bytes ∧ 0 ≤ object_store_bytes := by
  have hne : num_task_slots ≠ 0 := by omega
  have hsq : (1 : ℚ) ≤ (num_task_slots : ℚ) := by exact_mod_cast hslots
  have hpq : (0 : ℚ) ≤ (physical_mem_bytes : ℚ) := by exact_mod_cast hphys
  have hshq : (0 : ℚ) ≤ (shared_mem_bytes : ℚ) := by exact_mod_cast hshared
  have hP0 : (0 : ℚ) ≤ (physical_mem_bytes : ℚ) / (num_task_slots : ℚ) * MEMORY_BUFFER_OFFSET := by
    have : (0 : ℚ) ≤ MEMORY_BUFFER_OFFSET := by norm_num [MEMORY_BUFFER_OFFSET]
    exact mul_nonneg (div_nonneg hpq (by linarith)) this
  have hS0 : (0 : ℚ) ≤ (shared_mem_bytes : ℚ) / (num_task_slots : ℚ) * MEMORY_BUFFER_OFFSET := by
    have : (0 : ℚ) ≤ MEMORY_BUFFER_OFFSET := by norm_num [MEMORY_BUFFER_OFFSET]
    exact mul_nonneg (div_nonneg hshq (by linarith)) this
  have hPle : (physical_mem_bytes : ℚ) / (num_task_slots : ℚ) * MEMORY_BUFFER_OFFSET
      ≤ (physical_mem_bytes : ℚ) := by
    have h1 : (physical_mem_bytes : ℚ) / (num_task_slots : ℚ) * MEMORY_BUFFER_OFFSET
        ≤ (physical_mem_bytes : ℚ) / (num_task_slots : ℚ) :=
      mul_le_of_le_one_right (div_nonneg hpq (by linarith)) (by norm_num [MEMORY_BUFFER_OFFSET])
    exact h1.trans (div_le_self hpq hsq)
  set aP : ℤ := pyInt ((physical_mem_bytes : ℚ) / (num_task_slots : ℚ) * MEMORY_BUFFER_OFFSET)
    with haP
  set aS : ℤ := pyInt ((shared_mem_bytes : ℚ) / (num_task_slots : ℚ) * MEMORY_BUFFER_OFFSET)
    with haS
  have haP0 : 0 ≤ aP := pyInt_nonneg hP0
  have haS0 : 0 ≤ aS := pyInt_nonneg hS0
  have haPle : aP ≤ physical_mem_bytes := pyInt_le_of_le hP0 hPle
  have hM0 : (0 : ℚ) ≤ min ((aP : ℚ) * heap_to_shared_ratio) ((aS : ℚ)) := by
    refine le_min (mul_nonneg ?_ (by norm_num [heap_to_shared_ratio])) ?_
    · exact_mod_cast haP0
    · exact_mod_cast haS0
  have hMle : min ((aP : ℚ) * heap_to_shared_ratio) ((aS : ℚ)) ≤ (aP : ℚ) := by
    refine (min_le_left _ _).trans ?_
    exact mul_le_of_le_one_right (by exact_mod_cast haP0) (by norm_num [heap_to_shared_ratio])
  set ob : ℤ := pyInt (min ((aP : ℚ) * heap_to_shared_ratio) ((aS : ℚ))) with hob
  have hob0 : 0 ≤ ob := pyInt_nonneg hM0
  have hoble : ob ≤ aP := pyInt_le_of_le hM0 hMle
  refine ⟨aP - ob, ob, ?_, by omega, by omega, hob0⟩
  simp only [calc_mem_per_ray_worker_node, hne, if_false, if_neg hne]

/-- C1 witness: the bounds at a concrete machine shape (4 task slots, 1 MB
physical memory, 300 kB shared memory). -/
theorem calc_mem_per_ray_worker_node_bounds_witness :
    ∃ heap_mem_bytes object_store_bytes,
      calc_mem_per_ray_worker_node 4 1000000 300000 heap_to_shared_ratio
          = .ok (heap_mem_bytes, object_store_bytes)
        ∧ heap_mem_bytes + object_store_bytes ≤ 1000000
        ∧ 0 ≤ heap_mem_bytes ∧ 0 ≤ object_store_bytes :=
  calc_mem_per_ray_worker_node_bounds 4 1000000 300000
    (by norm_num) (by norm_num) (by norm_num)

/-- C6 counterexample: with `num_task_slots = -1` the function does not raise;
it returns the pair `(0, -800)`, refuting the claim that every
`num_task_slots ≤ 0` fails fast. -/
theorem calc_mem_negative_slots_returns :
    calc_mem_per_ray_worker_node (-1) 1000 1000 heap_to_shared_ratio = .ok (0, -800) := by
  norm_num [calc_mem_per_ray_worker_node, pyInt, MEMORY_BUFFER_OFFSET, heap_to_shared_ratio]

/-- C6 (amended): `_calc_mem_per_ray_worker_node` raises exactly when
`num_task_slots = 0` (a `ZeroDivisionError`); for negative `num_task_slots`
it returns a `(heap, object_store)` result instead of failing. -/
theorem calc_mem_fails_iff_zero_slots (num_task_slots physical_mem_bytes shared_mem_bytes : ℤ)
    (ratio : ℚ) :
    (∃ e, calc_mem_per_ray_worker_node num_task_slots physical_mem_bytes shared_mem_bytes
        ratio = .error e)
      ↔ num_task_slots = 0 := by
  by_cases h : num_task_slots = 0 <;> simp [calc_mem_per_ray_worker_node, h]

/-- C2: with `num_spark_tasks = None` and no resource totals provided, the
candidate list is the singleton `[1]`, and `max(*[1])` is `max(1)`, which
raises `TypeError` — the function does not return the documented maximum of
the seeded list. -/
theorem get_target_no_totals_type_error (m c g hb ob : ℤ) :
    get_target_spark_tasks m c g hb ob none none none none none = .error .typeError := rfl

/-- C4: an explicit `num_spark_tasks = -1` resolves to `max_concurrent_tasks`,
the host scheduler's reported maximum concurrent slot count, whatever the
other arguments are. -/
theorem get_target_minus_one_uses_max_concurrent (m c g hb ob : ℤ) (tc tg th tob : Option ℤ) :
    get_target_spark_tasks m c g hb ob (some (-1)) tc tg th tob = .ok m := rfl

/-- C5: with `num_spark_tasks = None` and only a positive `total_cpus`
provided, the resolved node count is `max(1, ceil(total_cpus /
num_spark_task_cpus))`. -/
theorem get_target_only_total_cpus (m c g hb ob tc : ℤ) (htc : 0 < tc) (hc : 0 < c) :
    get_target_spark_tasks m c g hb ob none (some tc) none none none
      = .ok (max 1 ⌈(tc : ℚ) / (c : ℚ)⌉) := by
  simp [get_target_spark_tasks, checkTotal, pyCeilDiv, resolve_target_spark_tasks,
    pyMaxUnpacked, not_le.mpr htc, hc.ne.symm]

/-- C5 witness: 5 total CPUs at 2 CPUs per task slot resolve to
`max(1, ceil(5/2)) = 3` nodes. -/
theorem get_target_only_total_cpus_witness :
    get_target_spark_tasks 8 2 3 4 6 none (some 5) none none none
      = .ok (max 1 ⌈(5 : ℚ) / (2 : ℚ)⌉) :=
  get_target_only_total_cpus 8 2 3 4 6 5 (by norm_num) (by norm_num)

/-- C7 counterexample: with an explicit positive `num_spark_tasks = 5` and a
provided non-positive `total_cpus = -1`, the function returns `5` instead of
raising `ValueError` — provided totals are not validated when an explicit
count is given, refuting the claim as stated. -/
theorem get_target_explicit_count_skips_total_checks :
    get_target_spark_tasks 4 1 1 1 1 (some 5) (some (-1)) none none none = .ok 5 := rfl

/-- C7 (amended): `get_target_spark_tasks` raises `ValueError` whenever an
explicit `num_spark_tasks` is neither `-1` nor positive; and, when
`num_spark_tasks` is `None` (and the per-node unit costs are non-zero so no
division error pre-empts the checks), whenever any provided total is `≤ 0`.
With an explicit valid count the totals are ignored. -/
theorem get_target_invalid_argument_errors
    (m c g hb ob : ℤ) (num tc tg th tob : Option ℤ)
    (hc : c ≠ 0) (hg : g ≠ 0) (hhb : hb ≠ 0) :
    (∀ n, num = some n → n ≠ -1 → n ≤ 0 →
        get_target_spark_tasks m c g hb ob num tc tg th tob = .error .valueError)
      ∧ (num = none →
        ((∃ t, tc = some t ∧ t ≤ 0) ∨ (∃ t, tg = some t ∧ t ≤ 0)
            ∨ (∃ t, th = some t ∧ t ≤ 0) ∨ (∃ t, tob = some t ∧ t ≤ 0)) →
        get_target_spark_tasks m c g hb ob num tc tg th tob = .error .valueError) := by
  constructor
  · rintro n rfl hne hle
    simp [get_target_spark_tasks, hne, hle]
  · rintro rfl hbad
    rcases hbad with ⟨t, rfl, ht⟩ | ⟨t, rfl, ht⟩ | ⟨t, rfl, ht⟩ | ⟨t, rfl, ht⟩
    · simp [get_target_spark_tasks, checkTotal_nonpos ht]
    · rcases checkTotal_ok_or_valueError tc hc [1] with ⟨l1, h1⟩ | h1
      · simp [get_target_spark_tasks, h1, checkTotal_nonpos ht]
      · simp [get_target_spark_tasks, h1]
    · rcases checkTotal_ok_or_valueError tc hc [1] with ⟨l1, h1⟩ | h1
      · rcases checkTotal_ok_or_valueError tg hg l1 with ⟨l2, h2⟩ | h2
        · simp [get_target_spark_tasks, h1, h2, checkTotal_nonpos ht]
        · simp [get_target_spark_tasks, h1, h2]
      · simp [get_target_spark_tasks, h1]
    · rcases checkTotal_ok_or_valueError tc hc [1] with ⟨l1, h1⟩ | h1
      · rcases checkTotal_ok_or_valueError tg hg l1 with ⟨l2, h2⟩ | h2
        · rcases checkTotal_ok_or_valueError th hhb l2 with ⟨l3, h3⟩ | h3
          · simp [get_target_spark_tasks, h1, h2, h3, checkTotal_nonpos ht]
          · simp [get_target_spark_tasks, h1, h2, h3]
        · simp [get_target_spark_tasks, h1, h2]
      · simp [get_target_spark_tasks, h1]

/-- C7 witness: the amended claim at `num_spark_tasks = None` with
`total_cpus = -3` provided. -/
theorem get_target_invalid_argument_errors_witness :
    (∀ n, (none : Option ℤ) = some n → n ≠ -1 → n ≤ 0 →
        get_target_spark_tasks 4 1 1 1 1 none (some (-3)) none none none
          = .error .valueError)
      ∧ ((none : Option ℤ) = none →
        ((∃ t, (some (-3) : Option ℤ) = some t ∧ t ≤ 0)
            ∨ (∃ t, (none : Option ℤ) = some t ∧ t ≤ 0)
            ∨ (∃ t, (none : Option ℤ) = some t ∧ t ≤ 0)
            ∨ (∃ t, (none : Option ℤ) = some t ∧ t ≤ 0)) →
        get_target_spark_tasks 4 1 1 1 1 none (some (-3)) none none none
          = .error .valueError) :=
  get_target_invalid_argument_errors 4 1 1 1 1 none (some (-3)) none none none
    (by norm_num) (by norm_num) (by norm_num)

/-- C3: when every one of the 600 non-blocking flock attempts of the first
`acquire_lock` call fails, the `TimeoutError` is swallowed by the inner
`except Exception` handler, so the function neither removes and recreates the
lock file, nor raises, nor holds the lock: it returns normally with the lock
variable equal to Python `None` — the stale-lock recovery branch of the
caller is unreachable, contrary to the claim and to the source's own
comments. -/
theorem startup_lock_timeout_swallowed (second : ℕ → Bool) (fd1 fd2 : ℕ) :
    acquire_lock_for_ray_worker_node_startup (fun _ => false) second fd1 fd2
      = { removedLockFile := false, raised := none, lockFd := none } := by
  simp [acquire_lock_for_ray_worker_node_startup, acquire_lock,
    acquire_lock_loop_all_fail fd1 0 max_lock_iter]

/-- C8: over any run of `auto_shutdown_watcher`, `shutdown_ray_cluster` is
called at most once; a poll observing `is_shutdown = true` exits with no
call; and on the first poll whose idle time exceeds the threshold, if the
handle is still the process-global active cluster, exactly one call is made
and none follows on any later poll. -/
theorem auto_shutdown_watcher_shutdown_once (auto_shutdown_millis : ℚ) (polls : List Poll) :
    watcher_shutdown_calls auto_shutdown_millis polls ≤ 1
      ∧ (∀ p ps, polls = p :: ps → p.is_shutdown = true →
          watcher_shutdown_calls auto_shutdown_millis polls = 0)
      ∧ (∀ pre p post, polls = pre ++ p :: post →
          (∀ q ∈ pre, q.is_shutdown = false ∧ ¬ q.idle_time > auto_shutdown_millis) →
          p.is_shutdown = false → p.idle_time > auto_shutdown_millis →
          p.handler_is_active = true →
          watcher_shutdown_calls auto_shutdown_millis polls = 1) := by
  refine ⟨?_, ?_, ?_⟩
  · induction polls with
    | nil => simp [watcher_shutdown_calls]
    | cons p ps ih =>
      simp only [watcher_shutdown_calls]
      split_ifs <;> omega
  · rintro p ps rfl hs
    simp [watcher_shutdown_calls, hs]
  · intro pre
    induction pre generalizing polls with
    | nil =>
      rintro p post rfl _ hs hidle hact
      simp [watcher_shutdown_calls, hs, hidle, hact]
    | cons q pre ih =>
      rintro p post rfl hpre hs hidle hact
      have hq := hpre q (by simp)
      simp only [List.cons_append, watcher_shutdown_calls, hq.1, if_false, hq.2,
        Bool.false_eq_true]
      exact ih (pre ++ p :: post) p post rfl
        (fun r hr => hpre r (List.mem_cons_of_mem q hr)) hs hidle hact

/-- C9: in `on_cluster_created` (with the API entry point available), an
auto-shutdown-minutes setting of 0 returns normally without starting the
watcher, a negative setting raises `ValueError`, and a positive setting with
the idle-time query available starts the watcher. -/
theorem on_cluster_created_auto_shutdown_settings (env : HookEnv)
    (hdb : env.dbutils_ok = true) :
    (env.auto_shutdown_minutes = 0 →
        (on_cluster_created env).raised = none
          ∧ (on_cluster_created env).watcher_started = false)
      ∧ (env.auto_shutdown_minutes < 0 →
        (on_cluster_created env).raised = some .valueError)
      ∧ (0 < env.auto_shutdown_minutes → env.idle_query_ok = true →
        (on_cluster_created env).watcher_started = true
          ∧ (on_cluster_created env).raised = none) := by
  refine ⟨?_, ?_, ?_⟩
  · intro h0
    simp [on_cluster_created, hdb, h0]
  · intro hneg
    simp [on_cluster_created, hdb, hneg.ne, hneg]
  · intro hpos hidle
    simp [on_cluster_created, hdb, hpos.ne.symm, not_lt.mpr hpos.le, hidle]

/-- C9 witness: the settings behaviour at the concrete environment with
auto-shutdown-minutes 0. -/
theorem on_cluster_created_auto_shutdown_settings_witness :
    ((0 : ℚ) = 0 →
        (on_cluster_created ⟨true, none, false, 0, true⟩).raised = none
          ∧ (on_cluster_created ⟨true, none, false, 0, true⟩).watcher_started = false)
      ∧ ((0 : ℚ) < 0 →
        (on_cluster_created ⟨true, none, false, 0, true⟩).raised = some .valueError)
      ∧ ((0 : ℚ) < 0 → true = true →
        (on_cluster_created ⟨true, none, false, 0, true⟩).watcher_started = true
          ∧ (on_cluster_created ⟨true, none, false, 0, true⟩).raised = none) :=
  on_cluster_created_auto_shutdown_settings ⟨true, none, false, 0, true⟩ rfl

/-- C10: in `on_cluster_created` (with the API entry point available),
background-job registration is attempted exactly when
`global_mode_enabled()` is false — in particular it is skipped whenever the
`DATABRICKS_RAY_CLUSTER_GLOBAL_MODE` variable lowercases to "true" — and a
registration failure never changes what propagates to the caller; it is only
recorded as a logged warning. -/
theorem on_cluster_created_global_mode_registration (env : HookEnv)
    (hdb : env.dbutils_ok = true) :
    ((on_cluster_created env).tried_register = !(global_mode_enabled env.global_mode_var))
      ∧ (∀ s, env.global_mode_var = some s → s.toLower = "true" →
          (on_cluster_created env).tried_register = false)
      ∧ (∀ b, (on_cluster_created (setRegisterFails env b)).raised
          = (on_cluster_created env).raised)
      ∧ ((on_cluster_created env).register_warned
          = ((on_cluster_created env).tried_register && env.register_fails)) := by
  refine ⟨?_, ?_, ?_, ?_⟩
  · rw [on_cluster_created_not_dbutils_failed env hdb]
    split_ifs <;> rfl
  · rintro s hvar hlow
    have hg : global_mode_enabled env.global_mode_var = true := by
      simp [global_mode_enabled, hvar, hlow]
    rw [on_cluster_created_not_dbutils_failed env hdb]
    split_ifs <;> simp [hg]
  · intro b
    rw [on_cluster_created_not_dbutils_failed (setRegisterFails env b)
        (by simpa [setRegisterFails] using hdb),
      on_cluster_created_not_dbutils_failed env hdb]
    simp only [setRegisterFails]
    split_ifs <;> rfl
  · rw [on_cluster_created_not_dbutils_failed env hdb]
    split_ifs <;> rfl

/-- C10 witness: the registration behaviour at the concrete environment whose
global-mode variable is "TRUE" and whose registration call would fail. -/
theorem on_cluster_created_global_mode_registration_witness :
    ((on_cluster_created ⟨true, some ("TRUE"), true, 30, true⟩).tried_register
        = !(global_mode_enabled (some ("TRUE"))))
      ∧ (∀ s, (some ("TRUE") : Option String) = some s → s.toLower = "true" →
          (on_cluster_created ⟨true, some ("TRUE"), true, 30, true⟩).tried_register = false)
      ∧ (∀ b, (on_cluster_created
            (setRegisterFails ⟨true, some ("TRUE"), true, 30, true⟩ b)).raised
          = (on_cluster_created ⟨true, some ("TRUE"), true, 30, true⟩).raised)
      ∧ ((on_cluster_created ⟨true, some ("TRUE"), true, 30, true⟩).register_warned
          = ((on_cluster_created ⟨true, some ("TRUE"), true, 30, true⟩).tried_register
            && true)) :=
  on_cluster_created_global_mode_registration ⟨true, some ("TRUE"), true, 30, true⟩ rfl

end RayOnSpark
